import Mathlib

/-!
A shallow embedding of `estimagic_stargazer/stargazer_function.py` (the class
`Stargazer`), together with theorems checking the specification of the repository
against it.

Modelling conventions:
* numeric scalars (p-values, thresholds, fit statistics, degrees of freedom)
  are rationals; a Python `nan` (a missing scalar) is `Option.none`;
* Python strings are Lean `String`s; `str * n` repetition, which the source
  uses as a conditional, is `pyRepeat`;
* the decimal text of a float produced by `str(...)` is abstracted by an
  injective numeral rendering `fmtQ` (no claim depends on the digits shown);
* `pandas` series are association lists, a `DataFrame` index is a list of keys.
-/

namespace StargazerModel

/-- Python `s * n` for a nonnegative count: `n` copies of `s` concatenated. -/
def strRep (s : String) : Nat → String
  | 0 => ""
  | n + 1 => s ++ strRep s n

/-- Python `s * z` for an `int` `z`: a nonpositive count yields `""`. -/
def pyRepeat (s : String) (z : Int) : String := strRep s z.toNat

/-- Rendering of a rational scalar by `str(...)`.  The decimal text of the
float is abstracted by an injective `num/den` numeral. -/
def fmtQ (x : ℚ) : String := toString x.num ++ "/" ++ toString x.den

/-- Python `str(x)` for a scalar that may be `nan`: Python prints `nan` for it. -/
def pyStr (x : Option ℚ) : String :=
  match x with
  | some v => fmtQ v
  | none => "nan"

/-- Addition of rationals.  `Rat.add` (behind `+`) is `@[irreducible]`, which
blocks kernel evaluation; this equivalent form is written with `Rat.divInt`
so that concrete states evaluate. -/
def qAdd (a b : ℚ) : ℚ :=
  Rat.divInt (a.num * b.den + b.num * a.den) (a.den * b.den)

/-- Subtraction of rationals, kernel-evaluable like `qAdd`. -/
def qSub (a b : ℚ) : ℚ :=
  Rat.divInt (a.num * b.den - b.num * a.den) (a.den * b.den)

/-- Floor of a rational, used by the decimal rounding below. -/
def ratFloor (x : ℚ) : Int := Int.fdiv x.num x.den

/-- Round-half-to-even to an integer, the rounding mode of `np.round`. -/
def roundHalfEven (x : ℚ) : Int :=
  let f := ratFloor x
  let r := qSub x (Rat.divInt f 1)
  if r < mkRat 1 2 then f
  else if mkRat 1 2 < r then f + 1
  else if f % 2 = 0 then f else f + 1

/-- Numpy `np.round(x, d)`: round to `d` decimal places, half to even. -/
def roundTo (d : Nat) (x : ℚ) : ℚ :=
  Rat.divInt (roundHalfEven (Rat.divInt (x.num * (10 : Int) ^ d) x.den)) ((10 : Int) ^ d)

/-- The bin edges `sig_bins = [-1] + sorted(self.sig_levels) + [2]`
(source lines 213 and 270). -/
def sigBins (levels : List ℚ) : List ℚ :=
  -1 :: (levels.insertionSort (· ≤ ·) ++ [2])

/-- The bin index `pd.cut` assigns to `p` for the given bin edges: the first
`i` with `bins[i] < p ≤ bins[i+1]`, `none` when `p` falls outside every bin
(`pd.cut` then yields `NaN`).  For strictly increasing edges the first such
interval is the unique one. -/
def cutBinIdx : List ℚ → ℚ → Option Nat
  | b0 :: b1 :: rest, p =>
    if b0 < p ∧ p ≤ b1 then some 0
    else (cutBinIdx (b1 :: rest) p).map (· + 1)
  | _, _ => none

/-- Star count of a coefficient p-value: `pd.cut(p, sig_bins, labels)` with
`labels[i] = "*" * (len(sig_levels) - i)` (source lines 214-221).  `some n`
stands for the label with `n` stars, `none` for the `NaN` category. -/
def coefStars (levels : List ℚ) (p : ℚ) : Option Nat :=
  (cutBinIdx (sigBins levels) p).map (fun i => levels.length - i)

/-- Rendering `str(...)` of a `pd.cut` category: the star label, or `nan`. -/
def sigIconStr (o : Option Nat) : String :=
  match o with
  | some n => strRep ("*") n
  | none => "nan"

/-- Numpy `np.digitize(x, bins)` (default `right=False`) for increasing `bins`:
the number of bin edges `≤ x`. -/
def digitize (bins : List ℚ) (x : ℚ) : Nat :=
  bins.countP (fun b => decide (b ≤ x))

/-- The F-statistic star string
`"*" * (1 - np.isnan(fp)) * (len(sig_levels) - np.digitize(fp, sig_bins) + 1)`
(source lines 222-226 and 280-284).  `np.digitize(nan, bins)` is
`len(bins)`; the `1 - isnan` factor blanks the string in that case anyway. -/
def fstatStars (levels : List ℚ) (fp : Option ℚ) : String :=
  let isnanInd : Int := match fp with | none => 1 | some _ => 0
  let dg : Int := match fp with
    | none => ((sigBins levels).length : Int)
    | some p => (digitize (sigBins levels) p : Int)
  pyRepeat (pyRepeat ("*") (1 - isnanInd)) ((levels.length : Int) - dg + 1)

/-- The default thresholds set by `reset_params`:
`self.sig_levels = [0.1, 0.05, 0.03, 0.01]` (source line 132). -/
def defaultSigLevels : List ℚ := [mkRat 1 10, mkRat 1 20, mkRat 3 100, mkRat 1 100]

/-! ### Correctness of the binning arithmetic -/

/-- For strictly increasing bin edges `lo :: s ++ [2]` and `lo < p ≤ 2`,
the `pd.cut` bin index of `p` is the number of inner edges strictly below
`p`. -/
theorem cutBinIdx_eq_countP (p : ℚ) (hp2 : p ≤ 2) :
    ∀ (s : List ℚ) (lo : ℚ), (lo :: (s ++ [2])).Sorted (· < ·) → lo < p →
      cutBinIdx (lo :: (s ++ [2])) p =
        some (s.countP (fun t => decide (t < p))) := by
  intro s
  induction s with
  | nil =>
    intro lo _ hlo
    simp [cutBinIdx, hlo, hp2]
  | cons t s ih =>
    intro lo hs hlo
    rw [List.sorted_cons] at hs
    obtain ⟨_, hs'⟩ := hs
    by_cases hpt : p ≤ t
    · have h0 : cutBinIdx (lo :: ((t :: s) ++ [2])) p = some 0 := by
        simp [cutBinIdx, hlo, hpt]
      have hge : ∀ u ∈ t :: s, t ≤ u := by
        intro u hu
        rcases List.mem_cons.mp hu with h | h
        · exact h ▸ le_refl t
        · exact le_of_lt (List.rel_of_sorted_cons hs' u (List.mem_append_left _ h))
      have hcount : (t :: s).countP (fun u => decide (u < p)) = 0 := by
        refine List.countP_eq_zero.mpr ?_
        intro u hu
        simp only [decide_eq_true_eq, not_lt]
        exact le_trans hpt (hge u hu)
      rw [h0, hcount]
    · push_neg at hpt
      have hstep : cutBinIdx (lo :: ((t :: s) ++ [2])) p =
          (cutBinIdx (t :: (s ++ [2])) p).map (· + 1) := by
        have : ¬ (lo < p ∧ p ≤ t) := by
          intro h
          exact absurd h.2 (not_le.mpr hpt)
        simp [cutBinIdx, this]
      rw [hstep, ih t hs' hpt]
      have : (t :: s).countP (fun u => decide (u < p)) =
          s.countP (fun u => decide (u < p)) + 1 :=
        List.countP_cons_of_pos _ _ (by simpa using hpt)
      simp [this]

/-- The bin-edge list `[-1] + sorted(levels) + [2]` is strictly increasing
when the thresholds are distinct and lie strictly between the sentinels. -/
theorem sigBins_sorted (levels : List ℚ) (hnd : levels.Nodup)
    (hrange : ∀ t ∈ levels, -1 < t ∧ t < 2) :
    (sigBins levels).Sorted (· < ·) := by
  have hperm := List.perm_insertionSort (· ≤ ·) levels
  have hle : (levels.insertionSort (· ≤ ·)).Sorted (· ≤ ·) :=
    List.sorted_insertionSort _ _
  have hnd' : (levels.insertionSort (· ≤ ·)).Nodup := hperm.nodup_iff.mpr hnd
  have hlt : (levels.insertionSort (· ≤ ·)).Sorted (· < ·) := hle.lt_of_le hnd'
  have hmem : ∀ t ∈ levels.insertionSort (· ≤ ·), -1 < t ∧ t < 2 := by
    intro t ht
    exact hrange t (hperm.mem_iff.mp ht)
  rw [sigBins, List.sorted_cons]
  constructor
  · intro b hb
    rcases List.mem_append.mp hb with h | h
    · exact (hmem b h).1
    · simp only [List.mem_singleton] at h
      subst h
      norm_num
  · rw [List.Sorted, List.pairwise_append]
    refine ⟨hlt, List.pairwise_singleton _ _, ?_⟩
    intro a ha b hb
    simp only [List.mem_singleton] at hb
    subst hb
    exact (hmem a ha).2

/-- On a `(· ≤ ·)`-sorted list, the index of the first element `≥ p`
(`length` when there is none) is the number of elements `< p`. -/
theorem findIdx_ge_eq_countP_lt (p : ℚ) :
    ∀ s : List ℚ, s.Sorted (· ≤ ·) →
      s.findIdx (fun t => decide (p ≤ t)) =
        s.countP (fun t => decide (t < p)) := by
  intro s
  induction s with
  | nil => simp
  | cons a s ih =>
    intro hs
    rw [List.sorted_cons] at hs
    by_cases hpa : p ≤ a
    · have h0 : (a :: s).findIdx (fun t => decide (p ≤ t)) = 0 := by
        rw [List.findIdx_cons]
        simp [hpa]
      have hc : (a :: s).countP (fun t => decide (t < p)) = 0 := by
        refine List.countP_eq_zero.mpr ?_
        intro u hu
        simp only [decide_eq_true_eq, not_lt]
        rcases List.mem_cons.mp hu with h | h
        · exact h ▸ hpa
        · exact le_trans hpa (hs.1 u h)
      rw [h0, hc]
    · push_neg at hpa
      rw [List.findIdx_cons]
      have hna : (decide (p ≤ a)) = false := by simpa using hpa
      rw [hna]
      simp only [cond_false]
      rw [ih hs.2, List.countP_cons_of_pos _ _ (by simpa using hpa)]

/-- C1: for every set of significance thresholds (pairwise distinct, sorted
descending, strictly between the sentinels `-1` and `2`) and every p-value in
the binnable range, the star count the source assigns through
`pd.cut(p, [-1] + sorted(T) + [2], labels)` equals `|T|` minus the bin index
of `p`, the bin index being the index of the first ascending-sorted threshold
`≥ p` (or `|T|` when there is none); in particular a p-value above every
threshold gets zero stars. -/
theorem C1_star_binning (levels : List ℚ) (p : ℚ)
    (hdesc : levels.Sorted (· > ·))
    (hrange : ∀ t ∈ levels, -1 < t ∧ t < 2)
    (hp1 : -1 < p) (hp2 : p ≤ 2) :
    coefStars levels p =
      some (levels.length -
        (levels.insertionSort (· ≤ ·)).findIdx (fun t => decide (p ≤ t))) ∧
    ((∀ t ∈ levels, t < p) → coefStars levels p = some 0) := by
  have hnd : levels.Nodup := hdesc.imp (fun h => ne_of_gt h)
  have hbins := sigBins_sorted levels hnd hrange
  rw [sigBins] at hbins
  have hcut : cutBinIdx (sigBins levels) p =
      some ((levels.insertionSort (· ≤ ·)).countP (fun t => decide (t < p))) := by
    rw [sigBins]
    exact cutBinIdx_eq_countP p hp2 (levels.insertionSort (· ≤ ·)) (-1) hbins hp1
  have hstars : coefStars levels p =
      some (levels.length -
        (levels.insertionSort (· ≤ ·)).countP (fun t => decide (t < p))) := by
    rw [coefStars, hcut]
    rfl
  constructor
  · rw [hstars,
      findIdx_ge_eq_countP_lt p (levels.insertionSort (· ≤ ·))
        (List.sorted_insertionSort _ _)]
  · intro hall
    have hfull : (levels.insertionSort (· ≤ ·)).countP (fun t => decide (t < p)) =
        (levels.insertionSort (· ≤ ·)).length := by
      refine List.countP_eq_length.mpr ?_
      intro a ha
      exact decide_eq_true (hall a ((List.perm_insertionSort _ _).mem_iff.mp ha))
    rw [hstars, hfull, List.length_insertionSort, Nat.sub_self]

/-- C1 witness: thresholds `[0.1, 0.05, 0.01]`, `p = 0.02` gets two stars. -/
theorem C1_star_binning_witness :
    coefStars [mkRat 1 10, mkRat 1 20, mkRat 1 100] (mkRat 1 50) = some 2 :=
  ((C1_star_binning [mkRat 1 10, mkRat 1 20, mkRat 1 100] (mkRat 1 50)
      (by decide) (by decide) (by decide) (by decide)).1).trans (by decide)

/-- Repeating the empty string yields the empty string. -/
theorem strRep_empty : ∀ n : Nat, strRep ("") n = ""
  | 0 => rfl
  | n + 1 => strRep_empty n

/-- C2 counterexample: with the default thresholds, an F p-value equal to the
threshold `0.05` receives one star (`np.digitize` is left-closed) while a
coefficient p-value of `0.05` receives two stars (`pd.cut` is right-closed),
so the two binning rules do not assign the same star count to the same
p-value. -/
theorem C2_counterexample :
    fstatStars defaultSigLevels (some (mkRat 1 20)) ≠
      sigIconStr (coefStars defaultSigLevels (mkRat 1 20)) ∧
    fstatStars defaultSigLevels (some (mkRat 1 20)) = "*" ∧
    coefStars defaultSigLevels (mkRat 1 20) = some 2 :=
  ⟨by decide, by decide, by decide⟩

/-- C2 (amended): the F-statistic stars use the same thresholds and the same
bin edges as the per-coefficient stars, and agree with them whenever the
p-value is not exactly equal to one of the thresholds; the star string is
empty when the F p-value is undefined. -/
theorem C2_fstat_amended (levels : List ℚ) (p : ℚ)
    (hdesc : levels.Sorted (· > ·))
    (hrange : ∀ t ∈ levels, -1 < t ∧ t < 2)
    (hp1 : -1 < p) (hp2 : p < 2) (hnp : p ∉ levels) :
    fstatStars levels (some p) = sigIconStr (coefStars levels p) ∧
    fstatStars levels none = "" := by
  have hnd : levels.Nodup := hdesc.imp (fun h => ne_of_gt h)
  have hbins := sigBins_sorted levels hnd hrange
  rw [sigBins] at hbins
  set s := levels.insertionSort (· ≤ ·) with hs
  have hlen : s.length = levels.length := List.length_insertionSort _ _
  set c := s.countP (fun t => decide (t < p)) with hc
  have hcle : c ≤ levels.length := by
    rw [hc, ← hlen]
    exact List.countP_le_length _
  -- the digitize count
  have hdig : digitize (sigBins levels) p = 1 + c := by
    rw [digitize, sigBins]
    rw [List.countP_cons_of_pos _ _ (by simpa using le_of_lt hp1)]
    rw [List.countP_append]
    have h2 : List.countP (fun b => decide (b ≤ p)) [(2 : ℚ)] = 0 := by
      simp [List.countP_cons, not_le.mpr hp2]
    rw [h2]
    have hcong : s.countP (fun b => decide (b ≤ p)) = c := by
      rw [hc]
      refine List.countP_congr ?_
      intro x hx
      have hxp : x ≠ p := by
        intro h
        exact hnp (h ▸ (List.perm_insertionSort (· ≤ ·) levels).mem_iff.mp hx)
      simp only [decide_eq_true_eq]
      exact ⟨fun h => lt_of_le_of_ne h hxp, le_of_lt⟩
    rw [hcong]
    omega
  -- the cut count
  have hcut : cutBinIdx (sigBins levels) p = some c := by
    rw [sigBins]
    exact cutBinIdx_eq_countP p (le_of_lt hp2) s (-1) hbins hp1
  have hstars : coefStars levels p = some (levels.length - c) := by
    rw [coefStars, hcut]
    rfl
  constructor
  · rw [hstars, fstatStars]
    simp only [hdig]
    have hone : pyRepeat ("*") (1 - 0) = "*" := by decide
    rw [pyRepeat, hone]
    have htn : ((levels.length : Int) - ((1 + c : Nat) : Int) + 1).toNat =
        levels.length - c := by omega
    rw [htn]
    rfl
  · rw [fstatStars]
    simp only [Int.sub_self]
    have hzero : pyRepeat ("*") 0 = "" := rfl
    rw [pyRepeat, hzero, strRep_empty]

/-- C2 amended witness: thresholds `[0.1, 0.05, 0.01]` and the off-threshold
p-value `0.02`: both rules give two stars, and an undefined F p-value gives
the empty string. -/
theorem C2_fstat_amended_witness :
    fstatStars [mkRat 1 10, mkRat 1 20, mkRat 1 100] (some (mkRat 1 50)) =
      sigIconStr (coefStars [mkRat 1 10, mkRat 1 20, mkRat 1 100] (mkRat 1 50)) ∧
    fstatStars [mkRat 1 10, mkRat 1 20, mkRat 1 100] none = "" :=
  C2_fstat_amended [mkRat 1 10, mkRat 1 20, mkRat 1 100] (mkRat 1 50)
    (by decide) (by decide) (by decide) (by decide) (by decide)

/-! ### The union covariate index -/

/-- The accumulation `pars = pars + list(md["param_names"])` over over all models
(source lines 159-161). -/
def collectParamNames {α : Type} (ls : List (List α)) : List α :=
  ls.foldl (fun acc l => acc ++ l) []

/-- The union index `self.param_names = sorted(set(pars))` (source line 162). -/
def unionIndex {α : Type} [LinearOrder α] [DecidableEq α]
    (ls : List (List α)) : List α :=
  (collectParamNames ls).dedup.insertionSort (· ≤ ·)

/-- Membership in the accumulated key list. -/
theorem mem_foldl_append {α : Type} (a : α) :
    ∀ (ls : List (List α)) (acc : List α),
      (a ∈ ls.foldl (fun acc l => acc ++ l) acc ↔ a ∈ acc ∨ ∃ l ∈ ls, a ∈ l) := by
  intro ls
  induction ls with
  | nil =>
    intro acc
    simp
  | cons l ls ih =>
    intro acc
    simp only [List.foldl_cons]
    rw [ih (acc ++ l)]
    simp only [List.mem_append, List.mem_cons]
    constructor
    · rintro (⟨h | h⟩ | ⟨w, hw, ha⟩)
      · exact Or.inl h
      · exact Or.inr ⟨l, Or.inl rfl, h⟩
      · exact Or.inr ⟨w, Or.inr hw, ha⟩
    · rintro (h | ⟨w, (rfl | hw), ha⟩)
      · exact Or.inl (Or.inl h)
      · exact Or.inl (Or.inr ha)
      · exact Or.inr ⟨w, hw, ha⟩

/-- C3: for every family of per-model covariate key lists, the union
covariate index `sorted(set(pars))` is sorted, duplicate-free, and contains
a key exactly when the key list of some model contains it. -/
theorem C3_union_index {α : Type} [LinearOrder α] [DecidableEq α]
    (nameLists : List (List α)) :
    (unionIndex nameLists).Sorted (· ≤ ·) ∧
    (unionIndex nameLists).Nodup ∧
    ∀ a : α, a ∈ unionIndex nameLists ↔ ∃ l ∈ nameLists, a ∈ l := by
  refine ⟨List.sorted_insertionSort _ _, ?_, ?_⟩
  · exact ((List.perm_insertionSort _ _).nodup_iff).mpr (List.nodup_dedup _)
  · intro a
    rw [unionIndex, (List.perm_insertionSort _ _).mem_iff, List.mem_dedup,
      collectParamNames, mem_foldl_append]
    simp

/-! ### The data model of a constructed `Stargazer` instance -/

/-- One row of `model.params`: the per-covariate scalars of the canonical
record (columns `value, pvalue, standard_error, ci_lower, ci_upper`). -/
structure ParamRow where
  value : ℚ
  pvalue : ℚ
  standard_error : ℚ
  ci_lower : ℚ
  ci_upper : ℚ
deriving DecidableEq

/-- The mapping `model.info`: the named summary scalars.  A `none` field is an absent
key, for which `info.get(key, np.nan)` produces `nan`. -/
structure ModelInfo where
  rsquared : Option ℚ := none
  rsquared_adj : Option ℚ := none
  scale : Option ℚ := none
  fvalue : Option ℚ := none
  f_pvalue : Option ℚ := none
  df_model : Option ℚ := none
  df_resid : Option ℚ := none
  n_obs : Option ℚ := none
  dependent_variable : Option String := none
deriving DecidableEq

/-- A model in the canonical namedtuple shape `(params, info)` that
`validate_input` accepts unchanged (its other two branches are the adapter,
outside the scope of the core).  `params` is the per-covariate table in index
order. -/
structure Model (κ : Type) where
  params : List (κ × ParamRow)
  info : ModelInfo
deriving DecidableEq

/-- How covariate keys behave under the Python operations the source applies
to them: `isTup k` is `isinstance(k, tuple)`, `segStr k i` is `str(k[i])`,
`wholeStr k` is `str(k)`, and `arity k` is the number of index levels the key
carries (`1` for a flat key). -/
class KeyRepr (κ : Type) where
  isTup : κ → Bool
  segStr : κ → Nat → String
  wholeStr : κ → String
  arity : κ → Nat

/-- Flat string covariate keys. -/
instance : KeyRepr String where
  isTup _ := false
  segStr s _ := s
  wholeStr s := s
  arity _ := 1

/-- Flat numeric covariate keys (an integer pandas index), used by the
concrete evaluated instances below: unlike `String`, the order on `Nat`
evaluates inside the kernel. -/
instance : KeyRepr Nat where
  isTup _ := false
  segStr n _ := toString n
  wholeStr n := toString n
  arity _ := 1

/-- Numpy `np.sqrt` on a possibly-`nan` scalar: `nan` on `nan` and on negative
input.  The magnitude is abstracted (the radicand is kept): the root is
irrational in general and every claim depends only on definedness and on the
rendering being deterministic. -/
def npSqrt (x : Option ℚ) : Option ℚ :=
  match x with
  | none => none
  | some v => if v < 0 then none else some v

/-- The record `extract_model_data` builds for one model
(source lines 193-227). -/
structure ModelData (κ : Type) where
  param_names : List κ
  param_values : List (κ × ℚ)
  p_values : List (κ × ℚ)
  param_std_err : List (κ × ℚ)
  ci_lower : List (κ × ℚ)
  ci_upper : List (κ × ℚ)
  r2 : Option ℚ
  r2_adj : Option ℚ
  resid_std_err : Option ℚ
  f_statistic : Option ℚ
  f_p_value : Option ℚ
  degree_freedom : Option ℚ
  degree_freedom_resid : Option ℚ
  n_obs : Option ℚ
  dependent_variable : Option String
  sig_icons : List (κ × Option Nat)
  sig_icon_fstat : String
deriving DecidableEq

/-- The series `pd.cut(md["p_values"], sig_bins, labels)` over the whole p-value series
(source lines 214-221, repeated at 272-279). -/
def computeSigIcons {κ : Type} (levels : List ℚ) (pvals : List (κ × ℚ)) :
    List (κ × Option Nat) :=
  pvals.map (fun kp => (kp.1, coefStars levels kp.2))

/-- Method `Stargazer.extract_model_data` (source lines 193-227). -/
def extract_model_data {κ : Type} (sigLevels : List ℚ) (m : Model κ) :
    ModelData κ :=
  let dfm := m.info.df_model
  let dfr := m.info.df_resid
  { param_names := m.params.map (fun kr => kr.1)
    param_values := m.params.map (fun kr => (kr.1, kr.2.value))
    p_values := m.params.map (fun kr => (kr.1, kr.2.pvalue))
    param_std_err := m.params.map (fun kr => (kr.1, kr.2.standard_error))
    ci_lower := m.params.map (fun kr => (kr.1, kr.2.ci_lower))
    ci_upper := m.params.map (fun kr => (kr.1, kr.2.ci_upper))
    r2 := m.info.rsquared
    r2_adj := m.info.rsquared_adj
    resid_std_err := npSqrt m.info.scale
    f_statistic := m.info.fvalue
    f_p_value := m.info.f_pvalue
    degree_freedom := dfm
    degree_freedom_resid := dfr
    n_obs := match m.info.n_obs with
      | some v => some v
      | none => match dfm, dfr with
        | some a, some b => some (qAdd (qAdd a b) 1)
        | _, _ => none
    dependent_variable := m.info.dependent_variable
    sig_icons := computeSigIcons sigLevels (m.params.map (fun kr => (kr.1, kr.2.pvalue)))
    sig_icon_fstat := fstatStars sigLevels m.info.f_pvalue }

/-- The table `self.first_table_col`: the collapsed first-column DataFrame.  `ncols`
is `len(first_table_col.columns)`, `rows` holds, per key of the union index,
the list of collapsed level strings `.loc[key]` yields. -/
structure FirstCol (κ : Type) where
  ncols : Nat
  rows : List (κ × List String)
deriving DecidableEq

/-- Collapsing pass over one index level after its first entry: an entry
equal to its predecessor becomes the empty string (source lines 180-184). -/
def collapseGo (prev : String) : List String → List String
  | [] => []
  | y :: ys => (if y = prev then "" else y) :: collapseGo y ys

/-- Computing `ulist[i]` from `metalist[i]`: the first entry is kept, repeated
consecutive entries are blanked (source lines 175-184). -/
def collapseCol : List String → List String
  | [] => []
  | x :: xs => x :: collapseGo x xs

/-- Build `self.first_table_col` (source lines 163-191): level `i` of row
`j` is the collapsed `str` of segment `i` of the `j`-th union-index key when
the keys are tuples (`tupMode`), else of the whole key. -/
def buildFirstCol {κ : Type} [KeyRepr κ] (nlevels : Nat) (tupMode : Bool)
    (paramNames : List κ) : FirstCol κ :=
  let metalist := (List.range nlevels).map (fun i =>
    paramNames.map (fun p =>
      if tupMode then KeyRepr.segStr p i else KeyRepr.wholeStr p))
  let ulist := metalist.map collapseCol
  { ncols := nlevels
    rows := paramNames.enum.map (fun ji =>
      (ji.2, ulist.map (fun col => col.getD ji.1 ("")))) }

/-- Series / dict lookup by key, as pandas `[...]` / `.loc[...]`. -/
def lookupKey {κ A : Type} [DecidableEq κ] : List (κ × A) → κ → Option A
  | [], _ => none
  | kv :: rest, k => if kv.1 = k then some kv.2 else lookupKey rest k

/-- The cell `self.first_table_col.loc[param_name][i]`. -/
def firstColCell {κ : Type} [DecidableEq κ] (fc : FirstCol κ) (k : κ)
    (i : Nat) : String :=
  ((lookupKey fc.rows k).getD []).getD i ("")

/-- The labels argument of `custom_columns`: a single banner string or a
list of labels. -/
abbrev ColumnLabels : Type := String ⊕ List String

/-- The attribute state of a `Stargazer` instance.  The flag defaults are
those `reset_params` sets (source lines 112-146); `header` is the attribute
the (shadowed) `show_header` method body writes, absent on a fresh
instance. -/
structure SGState (κ : Type) where
  models : List (Model κ)
  num_models : Nat
  title_text : Option String := none
  show_header : Bool := true
  header : Option Bool := none
  model_name : Option String := none
  column_labels : Option ColumnLabels := none
  column_separators : Option (List Int) := none
  show_model_nums : Bool := true
  original_param_names : Option (List κ) := none
  param_nicer_names : Option (List (String × String)) := none
  show_precision : Bool := true
  show_sig : Bool := true
  sig_levels : List ℚ := defaultSigLevels
  sig_digits : Nat := 3
  confidence_intervals : Bool := false
  show_footer : Bool := true
  custom_footer_text : List String := []
  show_n : Bool := true
  show_r2 : Bool := true
  show_adj_r2 : Bool := true
  show_residual_std_err : Bool := false
  show_f_statistic : Bool := true
  show_dof : Bool := false
  show_notes : Bool := true
  notes_label : String := "Note:"
  notes_append : Bool := true
  custom_notes : List String := []
  model_data : List (ModelData κ)
  param_names : List κ
  first_table_col : FirstCol κ
deriving DecidableEq

/-- Method `Stargazer.__init__` (source lines 76-83): list-or-single normalization,
`reset_params`, then `extract_data` (source lines 148-191) over canonical
records, for which `validate_input` is the identity. -/
def mkStargazer {κ : Type} [LinearOrder κ] [DecidableEq κ] [KeyRepr κ]
    (modelsArg : Model κ ⊕ List (Model κ)) : SGState κ :=
  let models := match modelsArg with
    | Sum.inl m => [m]
    | Sum.inr l => l
  let model_data := models.map (extract_model_data defaultSigLevels)
  let nameLists := model_data.map (fun md => md.param_names)
  let pars := collectParamNames nameLists
  let param_names := unionIndex nameLists
  let nlevels := match models with
    | [] => 1
    | m :: _ => match m.params with
      | [] => 1
      | kr :: _ => KeyRepr.arity kr.1
  let tupMode := match pars with
    | [] => false
    | k :: _ => KeyRepr.isTup k
  { models := models
    num_models := models.length
    model_data := model_data
    param_names := param_names
    first_table_col := buildFirstCol nlevels tupMode param_names }

/-! ### The render-option setter methods -/

/-- The body of the `show_header` method (source lines 233-235): it writes
`self.header`, not the `self.show_header` attribute the renderer reads (and
on a constructed instance the method itself is shadowed by that attribute). -/
def show_header_setter {κ : Type} (st : SGState κ) (b : Bool) : SGState κ :=
  { st with header := some b }

/-- The body of the `model_name` method (source lines 295-297); on a
constructed instance the method is shadowed by the `model_name` attribute
`reset_params` created. -/
def model_name_setter {κ : Type} (st : SGState κ) (name : String) : SGState κ :=
  { st with model_name := some name }

/-- Method `Stargazer.custom_columns` (source lines 241-262).  The `assert`
statements all precede the two assignments, so a raised `AssertionError`
(`Except.error`) leaves the instance exactly as it was; the type asserts on
`labels`/`separators` are carried by the `ColumnLabels`/`Option` shapes. -/
def custom_columns {κ : Type} (st : SGState κ) (labels : ColumnLabels)
    (separators : Option (List Int)) : Except String (SGState κ) :=
  match separators with
  | some seps =>
    match labels with
    | Sum.inr ls =>
      if ls.length ≠ seps.length then
        Except.error ("Number of labels must match number of columns")
      else if seps.sum ≠ (st.num_models : Int) then
        Except.error ("Please set number of columns to number of models")
      else
        Except.ok { st with column_labels := some labels,
                            column_separators := some seps }
    | Sum.inl _ =>
      Except.error ("Please input a list of labels or a single label string")
  | none =>
    match labels with
    | Sum.inl _ =>
      Except.ok { st with column_labels := some labels,
                          column_separators := none }
    | Sum.inr _ =>
      Except.error ("Please input a single string label if no columns specified")

/-- The state Python leaves after a `custom_columns` call: on an exception
the instance is unchanged. -/
def custom_columns_run {κ : Type} (st : SGState κ) (labels : ColumnLabels)
    (separators : Option (List Int)) : SGState κ :=
  match custom_columns st labels separators with
  | Except.ok st' => st'
  | Except.error _ => st

/-- Method `Stargazer.significance_levels` (source lines 264-284): store the
thresholds sorted descending and recompute both star annotations of every
model. -/
def significance_levels_m {κ : Type} (st : SGState κ) (levels : List ℚ) :
    SGState κ :=
  let newLevels := levels.insertionSort (fun a b => b ≤ a)
  { st with
    sig_levels := newLevels
    model_data := st.model_data.map (fun md =>
      { md with
        sig_icons := computeSigIcons newLevels md.p_values
        sig_icon_fstat := fstatStars newLevels md.f_p_value }) }

/-- Method `Stargazer.covariate_order` (source lines 299-307). -/
def covariate_order_m {κ : Type} [DecidableEq κ] (st : SGState κ)
    (paramNames : List κ) : Except String (SGState κ) :=
  if paramNames.all (fun k => decide (k ∈ st.param_names)) then
    Except.ok { st with original_param_names := some st.param_names,
                        param_names := paramNames }
  else
    Except.error ("Parameter order must contain subset of existing parameters")

/-- Method `Stargazer.reset_covariate_order` (source lines 314-316). -/
def reset_covariate_order_m {κ : Type} (st : SGState κ) : SGState κ :=
  match st.original_param_names with
  | some orig => { st with param_names := orig }
  | none => st

/-! ### HTML rendering (source lines 336-701) -/

/-- Numpy `np.isnan(x)` as the 0/1 value Python integer arithmetic sees. -/
def boolInd (x : Option ℚ) : Int := if x.isSome then 0 else 1

/-- The degrees-of-freedom annotation of the F-statistic row:
`(1 - min(ind_df, ind_dfr)) * ("(df = " + (1 - ind_df) * str(df) + "; "
+ (1 - ind_dfr) * str(dfr) + ")")` (source lines 640-650; lines 955-965 are
textually identical). -/
def dofAnnot (df dfr : Option ℚ) : String :=
  let ind_df := boolInd df
  let ind_dfr := boolInd dfr
  let ind := min ind_df ind_dfr
  pyRepeat ("(df = " ++ pyRepeat (pyStr df) (1 - ind_df) ++ "; " ++
    pyRepeat (pyStr dfr) (1 - ind_dfr) ++ ")") (1 - ind)

/-- Method `Stargazer.generate_header_html` (source lines 345-412). -/
def generate_header_html {κ : Type} (st : SGState κ) : String :=
  if !st.show_header then "" else
  let ncols := st.first_table_col.ncols
  let header := match st.title_text with
    | some t => t ++ "<br>"
    | none => ""
  let header := header ++ "<table style=\"text-align:center\"><tr><td colspan=\"" ++
    toString (st.num_models + ncols) ++
    "\" style=\"border-bottom: 1px solid black\"></td></tr>"
  let header := header ++ (match st.model_name with
    | some nm => "<tr><td style=\"text-align:left\"></td><td colspan=\"" ++
        toString (st.num_models + ncols - 1) ++ "\"><em>" ++ nm ++ "</em></td></tr>"
    | none => "")
  let header := header ++ "<tr><td style=\"text-align:left\"></td>"
  let header := header ++ (match st.column_labels with
    | none => ""
    | some (Sum.inl lab) =>
      (if ncols > 1 then
        "<td colspan=\"" ++ toString (ncols - 1) ++ "\">" ++ " </td>"
      else "") ++
      "<td colspan=\"" ++ toString st.num_models ++ "\">" ++ lab ++ "</td></tr>"
    | some (Sum.inr labs) =>
      "<tr><td></td>" ++
      (if ncols > 1 then
        "<td colspan=\"" ++ toString (ncols - 1) ++ "\">" ++ "</td>"
      else "") ++
      String.join ((labs.zip (st.column_separators.getD [])).map (fun ls =>
        "<td colspan=\"" ++ toString ls.2 ++ "\">" ++ ls.1 ++ "</td>")) ++
      "</tr>")
  let header := header ++ (if st.show_model_nums then
      "<tr><td style=\"text-align:left\"></td>" ++
      (if ncols > 1 then
        "<td colspan=\"" ++ toString (ncols - 1) ++ "\">" ++ "</td>"
      else "") ++
      String.join ((List.range st.num_models).map (fun i =>
        "<td>(" ++ toString (i + 1) ++ ")</td>")) ++
      "</tr>"
    else "")
  let header := header ++ (if ncols > 1 then
      "<tr><td colspan=\"" ++ toString (st.num_models + ncols + 1)
    else
      "<tr><td colspan=\"" ++ toString (st.num_models + 1))
  header ++ "\" style=\"border-bottom: 1px solid black\"></td></tr>"

/-- Method `Stargazer.generate_param_main_html` (source lines 435-475). -/
def generate_param_main_html {κ : Type} [DecidableEq κ] [KeyRepr κ]
    (st : SGState κ) (param_name : κ) : String :=
  let ppn := if KeyRepr.isTup param_name then
      KeyRepr.segStr param_name (KeyRepr.arity param_name - 1)
    else KeyRepr.wholeStr param_name
  let ppn := match st.param_nicer_names with
    | some dict => (lookupKey dict ppn).getD ppn
    | none => ppn
  let param_text := "<tr>"
  let param_text := param_text ++ (if !(KeyRepr.isTup param_name) then
      "<td style=\"text-align:left\">" ++ ppn ++ "&nbsp;</td>"
    else
      String.join ((List.range (KeyRepr.arity param_name - 1)).map (fun i =>
        "<td style=\"text-align:left\">" ++
        firstColCell st.first_table_col param_name i ++ "&nbsp;</td>")) ++
      "<td style=\"text-align:left\">" ++ ppn ++ "&nbsp;</td>")
  let param_text := param_text ++ String.join (st.model_data.map (fun md =>
    if param_name ∈ md.param_names then
      "<td>" ++
      fmtQ (roundTo st.sig_digits ((lookupKey md.param_values param_name).getD 0)) ++
      (if st.show_sig then
        "<sup>" ++ sigIconStr ((lookupKey md.sig_icons param_name).getD none) ++
        "</sup>"
      else "") ++ "</td>"
    else "<td></td>"))
  param_text ++ "</tr>"

/-- Method `Stargazer.generate_param_precision_html` (source lines 477-506). -/
def generate_param_precision_html {κ : Type} [DecidableEq κ] [KeyRepr κ]
    (st : SGState κ) (param_name : κ) : String :=
  let param_text := "<tr><td style=\"text-align:left\"></td>"
  let param_text := param_text ++ (if KeyRepr.isTup param_name then
      "<td colspan=\"" ++ toString (st.first_table_col.ncols - 1) ++ "\">" ++ "</td>"
    else "")
  let param_text := param_text ++ String.join (st.model_data.map (fun md =>
    if param_name ∈ md.param_names then
      "<td>&nbsp;(" ++
      (if st.confidence_intervals then
        fmtQ (roundTo st.sig_digits ((lookupKey md.ci_lower param_name).getD 0)) ++
        " , " ++
        fmtQ (roundTo st.sig_digits ((lookupKey md.ci_upper param_name).getD 0))
      else
        fmtQ (roundTo st.sig_digits ((lookupKey md.param_std_err param_name).getD 0))) ++
      ")</td>"
    else "<td></td>"))
  param_text ++ "</tr>"

/-- Method `Stargazer.generate_param_rows_html` (source lines 425-433). -/
def generate_param_rows_html {κ : Type} [DecidableEq κ] [KeyRepr κ]
    (st : SGState κ) (param_name : κ) : String :=
  generate_param_main_html st param_name ++
    (if st.show_precision then generate_param_precision_html st param_name
     else "<tr></tr>")

/-- Method `Stargazer.generate_body_html` (source lines 414-423). -/
def generate_body_html {κ : Type} [DecidableEq κ] [KeyRepr κ]
    (st : SGState κ) : String :=
  String.join (st.param_names.map (fun p => generate_param_rows_html st p))

/-- Method `Stargazer.generate_observations_html` (source lines 538-557). -/
def generate_observations_html {κ : Type} (st : SGState κ) : String :=
  if !st.show_n then "" else
  let obs := "<tr><td style=\"text-align: left\">Observations</td>"
  let obs := obs ++ (if st.first_table_col.ncols > 1 then
      "<td colspan=\"" ++ toString (st.first_table_col.ncols - 1) ++ "\">" ++ "</td>"
    else "")
  let obs := obs ++ String.join (st.model_data.map (fun md =>
    match md.n_obs with
    | none => "<td>  </td>"
    | some v => "<td>" ++ fmtQ v ++ "</td>"))
  obs ++ "</tr>"

/-- Method `Stargazer.generate_r2_html` (source lines 559-577). -/
def generate_r2_html {κ : Type} (st : SGState κ) : String :=
  if !st.show_r2 then "" else
  let r2t := "<tr><td style=\"text-align: left\">R<sup>2</sup></td>"
  let r2t := r2t ++ (if st.first_table_col.ncols > 1 then
      "<td colspan=\"" ++ toString (st.first_table_col.ncols - 1) ++ "\">" ++ "</td>"
    else "")
  let r2t := r2t ++ String.join (st.model_data.map (fun md =>
    match md.r2 with
    | none => "<td> </td>"
    | some v => "<td>" ++ fmtQ (roundTo st.sig_digits v) ++ "</td>"))
  r2t ++ "</tr>"

/-- Method `Stargazer.generate_r2_adj_html` (source lines 579-597).  Note the guard
`if not self.show_r2` on line 581: this row is gated by `show_r2`, and
`show_adj_r2` is never read. -/
def generate_r2_adj_html {κ : Type} (st : SGState κ) : String :=
  if !st.show_r2 then "" else
  let r2t := "<tr><td style=\"text-align: left\">Adjusted R<sup>2</sup></td>"
  let r2t := r2t ++ (if st.first_table_col.ncols > 1 then
      "<td colspan=\"" ++ toString (st.first_table_col.ncols - 1) ++ "\">" ++ "</td>"
    else "")
  let r2t := r2t ++ String.join (st.model_data.map (fun md =>
    match md.r2_adj with
    | none => "<td>  </td>"
    | some v => "<td>" ++ fmtQ (roundTo st.sig_digits v) ++ "</td>"))
  r2t ++ "</tr>"

/-- Method `Stargazer.generate_resid_std_err_html` (source lines 599-620); it too
opens with a `show_r2` guard (line 601). -/
def generate_resid_std_err_html {κ : Type} (st : SGState κ) : String :=
  if !st.show_r2 then "" else
  let rse := "<tr><td style=\"text-align: left\">Residual Std. Error</td>"
  let rse := rse ++ (if st.first_table_col.ncols > 1 then
      "<td colspan=\"" ++ toString (st.first_table_col.ncols - 1) ++ "\">" ++ "</td>"
    else "")
  let rse := rse ++ String.join (st.model_data.map (fun md =>
    (match md.resid_std_err with
     | none => "<td> "
     | some v => "<td>" ++ fmtQ (roundTo st.sig_digits v) ++
        (if st.show_dof && md.degree_freedom_resid.isSome then
          "(df = " ++ fmtQ (roundTo 0 (md.degree_freedom_resid.getD 0)) ++ ")"
        else "")) ++ "</td>"))
  rse ++ "</tr>"

/-- Method `Stargazer.generate_f_statistic_html` (source lines 622-653); it too
opens with a `show_r2` guard (line 624). -/
def generate_f_statistic_html {κ : Type} (st : SGState κ) : String :=
  if !st.show_r2 then "" else
  let ft := "<tr><td style=\"text-align: left\">F Statistic</td>"
  let ft := ft ++ (if st.first_table_col.ncols > 1 then
      "<td colspan=\"" ++ toString (st.first_table_col.ncols - 1) ++ "\">" ++ "</td>"
    else "")
  let ft := ft ++ String.join (st.model_data.map (fun md =>
    (match md.f_statistic with
     | none => "<td>"
     | some v => "<td>" ++ fmtQ (roundTo st.sig_digits v) ++
        "<sup>" ++ md.sig_icon_fstat ++ "</sup>" ++
        (if st.show_dof then
          dofAnnot md.degree_freedom md.degree_freedom_resid
        else "")) ++ "</td>"))
  ft ++ "</tr>"

/-- Method `Stargazer.generate_p_value_section_html` (source lines 671-684). -/
def generate_p_value_section_html {κ : Type} (st : SGState κ) : String :=
  let sigLs := st.sig_levels.insertionSort (· ≤ ·)
  let notes := "\n <td colspan=\"" ++
    toString (st.num_models + st.first_table_col.ncols - 1) ++
    "\" style=\"text-align: right\">"
  let notes := notes ++ String.join ((List.range (sigLs.length - 1)).map (fun i =>
    "<sup>" ++ strRep ("*") (sigLs.length - i) ++ "</sup>p&lt;" ++
    fmtQ (sigLs.getD i 0) ++ "; "))
  notes ++ "<sup>*</sup>p&lt;" ++ fmtQ (sigLs.getLast?.getD 0) ++ " </td>"

/-- Method `Stargazer.generate_additional_notes_html` (source lines 686-701). -/
def generate_additional_notes_html {κ : Type} (st : SGState κ) : String :=
  if st.custom_notes.length = 0 then "" else
  String.join (st.custom_notes.enum.map (fun inote =>
    (if inote.1 ≠ 0 ∨ st.notes_append then "<tr>" else "") ++
    "<td></td><td colspan=\"" ++
    toString (st.num_models + st.first_table_col.ncols - 1) ++
    "\" style=\"text-align: right\">" ++ inote.2 ++ "</td></tr>"))

/-- Method `Stargazer.generate_notes_html` (source lines 655-669). -/
def generate_notes_html {κ : Type} (st : SGState κ) : String :=
  if !st.show_notes then "" else
  "<tr><td style=\"text-align: left\">" ++ st.notes_label ++ "</td>" ++
  (if st.notes_append then generate_p_value_section_html st else "") ++
  "</tr>" ++
  generate_additional_notes_html st

/-- Method `Stargazer.generate_footer_html` (source lines 508-536). -/
def generate_footer_html {κ : Type} (st : SGState κ) : String :=
  let footer := "<td colspan=\"" ++
    toString (st.num_models + st.first_table_col.ncols) ++
    "\" style=\"border-bottom: 1px solid black\"></td></tr>"
  if !st.show_footer then footer else
  footer ++ generate_observations_html st ++ generate_r2_html st ++
  generate_r2_adj_html st ++
  (if st.show_residual_std_err then generate_resid_std_err_html st else "") ++
  (if st.show_f_statistic then generate_f_statistic_html st else "") ++
  "<tr><td colspan=\"" ++ toString (st.num_models + st.first_table_col.ncols) ++
  "\" style=\"border-bottom: 1px solid black\"></td></tr>" ++
  generate_notes_html st ++ "</table>"

/-- Method `Stargazer.render_html` (source lines 337-343). -/
def render_html {κ : Type} [DecidableEq κ] [KeyRepr κ] (st : SGState κ) : String :=
  generate_header_html st ++ generate_body_html st ++ generate_footer_html st

/-! ### LaTeX rendering (source lines 703-1020) -/

/-- Method `Stargazer.generate_header_latex` (source lines 712-770).  When
`only_tabular` is false and `show_header` is false, only the opening
`table` environment line is returned (the early return on line 717-718). -/
def generate_header_latex {κ : Type} (st : SGState κ) (only_tabular : Bool) :
    String :=
  let ncol := st.first_table_col.ncols
  let pre := if !only_tabular then "\\begin\x7btable\x7d[!htbp] \\centering\n" else ""
  if !only_tabular && !st.show_header then pre else
  let pre := pre ++ (if !only_tabular then
      (match st.title_text with
       | some t => "  \\caption\x7b" ++ t ++ "\x7d\n"
       | none => "") ++ "  \\label\x7b\x7d\n"
    else "")
  let header := pre ++ "\\begin\x7btabularx\x7d\x7b\\textwidth\x7d\x7b" ++
    strRep ("l") ncol ++ strRep ("X") st.num_models ++ "\x7d\n"
  let header := header ++ "\\\\[-1.8ex]\\hline\n"
  let header := header ++ "\\hline \\\\[-1.8ex]\n"
  let header := header ++ (match st.model_name with
    | some nm => strRep ("&") ncol ++ "\\multicolumn\x7b" ++
        toString st.num_models ++ "\x7d\x7bc\x7d" ++
        "\x7b\\textit\x7b" ++ nm ++ "\x7d\x7d \\\n" ++
        "\\cr \\cline\x7b" ++ toString (st.num_models + 1) ++ "-" ++
        toString (st.num_models + ncol) ++ "\x7d\n"
    | none => "")
  let header := header ++ (match st.column_labels with
    | none => ""
    | some (Sum.inl lab) =>
      "\\\\[-1.8ex]" ++ strRep ("&") ncol ++ "\\multicolumn\x7b" ++
      toString st.num_models ++ "\x7d\x7bc\x7d\x7b" ++ lab ++ "\x7d \\\\"
    | some (Sum.inr labs) =>
      "\\\\[-1.8ex]" ++ strRep ("&") (ncol - 1) ++
      String.join ((labs.zip (st.column_separators.getD [])).map (fun ls =>
        "& \\multicolumn\x7b" ++ toString ls.2 ++ "\x7d\x7bl\x7d\x7b" ++
        ls.1 ++ "\x7d ")) ++
      " \\\\\n")
  let header := header ++ (if st.show_model_nums then
      "\\\\[-1.8ex]" ++ strRep (" &") (ncol - 1) ++
      String.join ((List.range st.num_models).map (fun i =>
        "& (" ++ toString (i + 1) ++ ") ")) ++
      "\\\\\n"
    else "")
  header ++ "\\hline \\\\[-1.8ex]\n"

/-- Method `Stargazer.generate_param_main_latex` (source lines 797-826). -/
def generate_param_main_latex {κ : Type} [DecidableEq κ] [KeyRepr κ]
    (st : SGState κ) (param_name : κ) : String :=
  let ppn := if KeyRepr.isTup param_name then
      KeyRepr.segStr param_name (KeyRepr.arity param_name - 1)
    else KeyRepr.wholeStr param_name
  let ppn := match st.param_nicer_names with
    | some dict => (lookupKey dict ppn).getD ppn
    | none => ppn
  let param_text := if !(KeyRepr.isTup param_name) then " " ++ ppn ++ " "
    else
      " " ++ String.join ((List.range (KeyRepr.arity param_name - 1)).map (fun i =>
        firstColCell st.first_table_col param_name i ++ "&")) ++ ppn
  let param_text := param_text ++ String.join (st.model_data.map (fun md =>
    if param_name ∈ md.param_names then
      "& " ++
      fmtQ (roundTo st.sig_digits ((lookupKey md.param_values param_name).getD 0)) ++
      (if st.show_sig then
        "$^\x7b" ++ sigIconStr ((lookupKey md.sig_icons param_name).getD none) ++
        "\x7d$"
      else "") ++ " "
    else "& "))
  param_text ++ "\\\\\n"

/-- Method `Stargazer.generate_param_precision_latex` (source lines 828-849). -/
def generate_param_precision_latex {κ : Type} [DecidableEq κ] [KeyRepr κ]
    (st : SGState κ) (param_name : κ) : String :=
  let param_text := strRep ("&") (st.first_table_col.ncols - 1)
  let param_text := param_text ++ String.join (st.model_data.map (fun md =>
    if param_name ∈ md.param_names then
      "&(" ++
      (if st.confidence_intervals then
        fmtQ (roundTo st.sig_digits ((lookupKey md.ci_lower param_name).getD 0)) ++
        " , " ++
        fmtQ (roundTo st.sig_digits ((lookupKey md.ci_upper param_name).getD 0))
      else
        fmtQ (roundTo st.sig_digits ((lookupKey md.param_std_err param_name).getD 0))) ++
      ")"
    else "& "))
  param_text ++ "\\\\\n"

/-- Method `Stargazer.generate_param_rows_latex` (source lines 787-795). -/
def generate_param_rows_latex {κ : Type} [DecidableEq κ] [KeyRepr κ]
    (st : SGState κ) (param_name : κ) : String :=
  generate_param_main_latex st param_name ++
    (if st.show_precision then generate_param_precision_latex st param_name
     else "& ")

/-- Method `Stargazer.generate_body_latex` (source lines 772-785). -/
def generate_body_latex {κ : Type} [DecidableEq κ] [KeyRepr κ]
    (st : SGState κ) : String :=
  String.join (st.param_names.map (fun p =>
    generate_param_rows_latex st p ++ "  " ++
    strRep ("& ") st.num_models ++ "\\\\\n"))

/-- Method `Stargazer.generate_observations_latex` (source lines 877-890). -/
def generate_observations_latex {κ : Type} (st : SGState κ) : String :=
  if !st.show_n then "" else
  " Observations\\quad\\quad " ++ strRep ("&") (st.first_table_col.ncols - 1) ++
  String.join (st.model_data.map (fun md =>
    match md.n_obs with
    | none => "&   "
    | some v => "& " ++ fmtQ v ++ " ")) ++
  "\\\\\n"

/-- Method `Stargazer.generate_r2_latex` (source lines 892-905). -/
def generate_r2_latex {κ : Type} (st : SGState κ) : String :=
  if !st.show_r2 then "" else
  " R$\x7b2\x7d$\\quad\\quad " ++ strRep ("&") (st.first_table_col.ncols - 1) ++
  String.join (st.model_data.map (fun md =>
    match md.r2 with
    | none => "&   "
    | some v => "& " ++ fmtQ (roundTo st.sig_digits v) ++ " ")) ++
  "\\\\\n"

/-- Method `Stargazer.generate_r2_adj_latex` (source lines 907-920); gated by
`show_r2` (line 909), like its HTML counterpart. -/
def generate_r2_adj_latex {κ : Type} (st : SGState κ) : String :=
  if !st.show_r2 then "" else
  " Adjusted R$\x7b2\x7d$\\quad\\quad" ++ strRep ("&") (st.first_table_col.ncols - 1) ++
  String.join (st.model_data.map (fun md =>
    match md.r2_adj with
    | none => "&   "
    | some v => "& " ++ fmtQ (roundTo st.sig_digits v) ++ " ")) ++
  "\\\\\n"

/-- Method `Stargazer.generate_resid_std_err_latex` (source lines 922-938); gated
by `show_r2` (line 924). -/
def generate_resid_std_err_latex {κ : Type} (st : SGState κ) : String :=
  if !st.show_r2 then "" else
  " Residual Std. Error \\quad\\quad" ++ strRep ("&") (st.first_table_col.ncols - 1) ++
  String.join (st.model_data.map (fun md =>
    (match md.resid_std_err with
     | none => "&  "
     | some v => "& " ++ fmtQ (roundTo st.sig_digits v) ++
        (if st.show_dof && md.degree_freedom_resid.isSome then
          "(df = " ++ fmtQ (roundTo 0 (md.degree_freedom_resid.getD 0)) ++ ")"
        else "")) ++ " ")) ++
  " \\\\\n"

/-- Method `Stargazer.generate_f_statistic_latex` (source lines 940-968); gated by
`show_r2` (line 942); its degrees-of-freedom block (lines 955-965) is
textually identical to the HTML one and shares `dofAnnot`. -/
def generate_f_statistic_latex {κ : Type} (st : SGState κ) : String :=
  if !st.show_r2 then "" else
  " F Statistic\\quad\\quad " ++ strRep ("&") (st.first_table_col.ncols - 1) ++
  String.join (st.model_data.map (fun md =>
    (match md.f_statistic with
     | none => "&    "
     | some v => "& " ++ fmtQ (roundTo st.sig_digits v) ++
        "$^\x7b" ++ md.sig_icon_fstat ++ "\x7d$ " ++
        (if st.show_dof then
          dofAnnot md.degree_freedom md.degree_freedom_resid
        else "")) ++ " ")) ++
  "\\\\\n"

/-- Method `Stargazer.generate_p_value_section_latex` (source lines 983-1000). -/
def generate_p_value_section_latex {κ : Type} (st : SGState κ) : String :=
  let sigLs := st.sig_levels.insertionSort (· ≤ ·)
  " & \\multicolumn\x7b" ++
  toString (st.num_models + st.first_table_col.ncols - 1) ++ "\x7d\x7br\x7d\x7b" ++
  String.join ((List.range (sigLs.length - 1)).map (fun i =>
    "$^\x7b" ++ strRep ("*") (sigLs.length - i) ++ "\x7d$p$<$" ++
    fmtQ (sigLs.getD i 0) ++ "; ")) ++
  "$^\x7b*\x7d$p$<$" ++ fmtQ (sigLs.getLast?.getD 0) ++ "\x7d \\\\\n"

/-- Method `Stargazer.generate_additional_notes_latex` (source lines 1002-1020);
the emptiness guard is commented out in the source, so the loop simply runs
over all custom notes. -/
def generate_additional_notes_latex {κ : Type} (st : SGState κ) : String :=
  String.join (st.custom_notes.map (fun note =>
    strRep (" &") st.first_table_col.ncols ++ "\\multicolumn\x7b" ++
    toString st.num_models ++ "\x7d\x7br\x7d\\textit\x7b" ++ note ++ "\x7d \\\\\n"))

/-- Method `Stargazer.generate_notes_latex` (source lines 970-981). -/
def generate_notes_latex {κ : Type} (st : SGState κ) : String :=
  if !st.show_notes then "" else
  "\\textit\x7b" ++ st.notes_label ++ "\x7d" ++
  (if st.notes_append then generate_p_value_section_latex st else "") ++
  generate_additional_notes_latex st

/-- Method `Stargazer.generate_footer_latex` (source lines 851-875). -/
def generate_footer_latex {κ : Type} (st : SGState κ) (only_tabular : Bool) :
    String :=
  let footer := "\\hline \\\\[-1.8ex]\n"
  if !st.show_footer then footer else
  footer ++ generate_observations_latex st ++ generate_r2_latex st ++
  generate_r2_adj_latex st ++
  (if st.show_residual_std_err then generate_resid_std_err_latex st else "") ++
  (if st.show_f_statistic then generate_f_statistic_latex st else "") ++
  "\\hline\n\\hline \\\\[-1.8ex]\n" ++
  generate_notes_latex st ++ "\\end\x7btabularx\x7d" ++
  (if !only_tabular then "\n\\end\x7btable\x7d" else "")

/-- Method `Stargazer.render_latex` (source lines 704-710). -/
def render_latex {κ : Type} [DecidableEq κ] [KeyRepr κ] (st : SGState κ)
    (only_tabular : Bool) : String :=
  generate_header_latex st only_tabular ++ generate_body_latex st ++
  generate_footer_latex st only_tabular

/-! ### Concrete instances used by the evaluated theorems -/

/-- A small canonical two-covariate model (numeric covariate keys). -/
def exampleModel : Model Nat :=
  { params := [
      (1, { value := 1, pvalue := mkRat 1 2,
            standard_error := mkRat 1 10, ci_lower := 0, ci_upper := 2 }),
      (2, { value := mkRat 3 2, pvalue := mkRat 1 50,
            standard_error := mkRat 1 5, ci_lower := 1, ci_upper := 2 })]
    info := { rsquared := some (mkRat 9 10), rsquared_adj := some (mkRat 4 5),
              scale := some 4, fvalue := some 12,
              f_pvalue := some (mkRat 1 1000), df_model := some 1,
              df_resid := some 8, n_obs := some 10,
              dependent_variable := some ("y") } }

/-- A model whose F statistic is defined while `df_model` is missing and
`df_resid` is present. -/
def modelC6 : Model Nat :=
  { params := [
      (1, { value := 1, pvalue := mkRat 1 50,
            standard_error := 1, ci_lower := 0, ci_upper := 2 })]
    info := { fvalue := some 5, f_pvalue := some (mkRat 1 1000),
              df_resid := some 5, n_obs := some 10 } }

/-! ### Claims about the configuration and the renderers -/

set_option maxRecDepth 20000 in
/-- C4: the footer statistic rows are not independently gated.  Evaluated on
a one-model instance: with `show_r2 = False` and `show_adj_r2 = True` the
adjusted-R² row disappears from both encodings; the residual-std-error and
F-statistic row bodies disappear although their own flags are true; and
toggling `show_adj_r2` never changes the footer of either encoding, because
the flag is never read. -/
theorem C4_footer_gating_bug :
    generate_r2_adj_html { mkStargazer (Sum.inl exampleModel) with
      show_r2 := false, show_adj_r2 := true } = "" ∧
    generate_r2_adj_latex { mkStargazer (Sum.inl exampleModel) with
      show_r2 := false, show_adj_r2 := true } = "" ∧
    generate_r2_adj_html { mkStargazer (Sum.inl exampleModel) with
      show_adj_r2 := false } ≠ "" ∧
    generate_resid_std_err_html { mkStargazer (Sum.inl exampleModel) with
      show_residual_std_err := true, show_r2 := false } = "" ∧
    generate_f_statistic_html { mkStargazer (Sum.inl exampleModel) with
      show_f_statistic := true, show_r2 := false } = "" ∧
    generate_footer_html { mkStargazer (Sum.inl exampleModel) with
      show_adj_r2 := true } =
      generate_footer_html { mkStargazer (Sum.inl exampleModel) with
        show_adj_r2 := false } ∧
    generate_footer_latex { mkStargazer (Sum.inl exampleModel) with
      show_adj_r2 := true } false =
      generate_footer_latex { mkStargazer (Sum.inl exampleModel) with
        show_adj_r2 := false } false :=
  ⟨by decide, by decide, by decide, by decide, by decide, by decide, by decide⟩

set_option maxRecDepth 20000 in
/-- C5: the `show_header` setter body does not mutate the option the
renderer reads.  On a constructed instance it writes the separate `header`
attribute, `show_header` keeps its old value, and the rendered header is
unchanged; `reset_params` has also already bound the `show_header` and
`model_name` attribute names that shadow both methods. -/
theorem C5_show_header_bug :
    (show_header_setter (mkStargazer (Sum.inl exampleModel)) false).show_header
      = true ∧
    (show_header_setter (mkStargazer (Sum.inl exampleModel)) false).header
      = some false ∧
    generate_header_html
        (show_header_setter (mkStargazer (Sum.inl exampleModel)) false) =
      generate_header_html (mkStargazer (Sum.inl exampleModel)) ∧
    (mkStargazer (Sum.inl exampleModel)).model_name = none :=
  ⟨by decide, by decide, by decide, by decide⟩

/-- C6 counterexample: with `show_dof` enabled, an F statistic present,
`df_model` undefined and `df_resid = 5`, the F-statistic row still carries a
partial `(df = ; 5/1)` annotation in both encodings — it differs from the
annotation-free row — so the annotation is not suppressed when only one of
the two degrees-of-freedom values is undefined. -/
theorem C6_counterexample :
    generate_f_statistic_html { mkStargazer (Sum.inl modelC6) with
      show_dof := true } ≠
      generate_f_statistic_html { mkStargazer (Sum.inl modelC6) with
        show_dof := false } ∧
    generate_f_statistic_latex { mkStargazer (Sum.inl modelC6) with
      show_dof := true } ≠
      generate_f_statistic_latex { mkStargazer (Sum.inl modelC6) with
        show_dof := false } ∧
    dofAnnot none (some 5) = "(df = ; 5/1)" :=
  ⟨by decide, by decide, by decide⟩

/-- The length of one Python repetition. -/
theorem length_strRep_one (s : String) : (strRep s 1).length = s.length := by
  show (s ++ strRep s 0).length = s.length
  rw [String.length_append]
  rfl

/-- The length of the dof-annotation body string. -/
theorem length_dofBody (x y : String) :
    (((("(df = " ++ x) ++ "; ") ++ y) ++ ")").length =
      9 + (x.length + y.length) := by
  simp only [String.length_append]
  have h1 : ("(df = ").length = 6 := rfl
  have h2 : ("; ").length = 2 := rfl
  have h3 : (")").length = 1 := rfl
  rw [h1, h2, h3]
  omega

/-- C6 (amended): the `min`-based check suppresses the entire
degrees-of-freedom annotation exactly when both `df_model` and `df_resid`
are undefined; when only one is undefined the annotation is emitted with
that side blank. -/
theorem C6_dof_suppression (df dfr : Option ℚ) :
    dofAnnot df dfr = "" ↔ df = none ∧ dfr = none := by
  cases df with
  | none =>
    cases dfr with
    | none => exact ⟨fun _ => ⟨rfl, rfl⟩, fun _ => rfl⟩
    | some w =>
      constructor
      · intro he
        have hl := congrArg String.length he
        have hb : dofAnnot none (some w) =
            strRep (((("(df = " ++ strRep ("nan") 0) ++ "; ") ++
              strRep (fmtQ w) 1) ++ ")") 1 := rfl
        rw [hb, length_strRep_one, length_dofBody] at hl
        have h0 : ("" : String).length = 0 := rfl
        rw [h0] at hl
        omega
      · rintro ⟨_, h⟩
        exact Option.noConfusion h
  | some v =>
    cases dfr with
    | none =>
      constructor
      · intro he
        have hl := congrArg String.length he
        have hb : dofAnnot (some v) none =
            strRep (((("(df = " ++ strRep (fmtQ v) 1) ++ "; ") ++
              strRep ("nan") 0) ++ ")") 1 := rfl
        rw [hb, length_strRep_one, length_dofBody] at hl
        have h0 : ("" : String).length = 0 := rfl
        rw [h0] at hl
        omega
      · rintro ⟨h, _⟩
        exact Option.noConfusion h
    | some w =>
      constructor
      · intro he
        have hl := congrArg String.length he
        have hb : dofAnnot (some v) (some w) =
            strRep (((("(df = " ++ strRep (fmtQ v) 1) ++ "; ") ++
              strRep (fmtQ w) 1) ++ ")") 1 := rfl
        rw [hb, length_strRep_one, length_dofBody] at hl
        have h0 : ("" : String).length = 0 := rfl
        rw [h0] at hl
        omega
      · rintro ⟨h, _⟩
        exact Option.noConfusion h

/-- Pointwise truth of a predicate over a list of model records. -/
def AllModels {κ : Type} (P : ModelData κ → Prop) : List (ModelData κ) → Prop
  | [] => True
  | md :: rest => P md ∧ AllModels P rest

/-- Lemma: `AllModels` holds of a mapped list when the predicate holds of every
image. -/
theorem allModels_map {κ : Type} (P : ModelData κ → Prop)
    (f : ModelData κ → ModelData κ) (h : ∀ md, P (f md)) :
    ∀ l : List (ModelData κ), AllModels P (l.map f)
  | [] => trivial
  | md :: rest => ⟨h md, allModels_map P f h rest⟩

/-- C7: after any `significance_levels` call, the stored thresholds are the
new ones (sorted descending) and the per-coefficient star
annotations and the F-statistic star annotation of every model are exactly the recomputation
under the new thresholds — no model and no annotation kind keeps a value
derived from the old thresholds. -/
theorem C7_recompute_consistent {κ : Type} (st : SGState κ)
    (levels : List ℚ) :
    (significance_levels_m st levels).sig_levels =
      levels.insertionSort (fun a b => b ≤ a) ∧
    AllModels (fun md =>
      md.sig_icons =
        computeSigIcons (significance_levels_m st levels).sig_levels
          md.p_values ∧
      md.sig_icon_fstat =
        fstatStars (significance_levels_m st levels).sig_levels md.f_p_value)
      (significance_levels_m st levels).model_data := by
  refine ⟨rfl, ?_⟩
  exact allModels_map _ _ (fun md => ⟨rfl, rfl⟩) st.model_data

/-- C8: `custom_columns` with a label list and separators whose sum is not
the model count raises a validation error, and after the failed call the
instance — in particular `column_labels` and `column_separators` — is
unchanged. -/
theorem C8_custom_columns_rejects {κ : Type} (st : SGState κ)
    (ls : List String) (seps : List Int)
    (h : seps.sum ≠ (st.num_models : Int)) :
    (∃ msg, custom_columns st (Sum.inr ls) (some seps) = Except.error msg) ∧
    custom_columns_run st (Sum.inr ls) (some seps) = st := by
  have hcc : custom_columns st (Sum.inr ls) (some seps) =
      (if ls.length ≠ seps.length then
        Except.error ("Number of labels must match number of columns")
      else
        Except.error ("Please set number of columns to number of models")) := by
    by_cases hlen : ls.length ≠ seps.length
    · simp only [custom_columns, if_pos hlen]
    · simp only [custom_columns, if_neg hlen, if_pos h]
  constructor
  · by_cases hlen : ls.length ≠ seps.length
    · exact ⟨_, by rw [hcc, if_pos hlen]⟩
    · exact ⟨_, by rw [hcc, if_neg hlen]⟩
  · by_cases hlen : ls.length ≠ seps.length
    · simp only [custom_columns_run, hcc, if_pos hlen]
    · simp only [custom_columns_run, hcc, if_neg hlen]

/-- C8 witness: on the one-model example instance, labels `["a", "b"]` with
separators `[1, 2]` (sum 3 ≠ 1) are rejected and the state is unchanged. -/
theorem C8_custom_columns_rejects_witness :
    (∃ msg, custom_columns (mkStargazer (Sum.inl exampleModel))
      (Sum.inr [("a"), ("b")]) (some [1, 2]) = Except.error msg) ∧
    custom_columns_run (mkStargazer (Sum.inl exampleModel))
      (Sum.inr [("a"), ("b")]) (some [1, 2]) =
      mkStargazer (Sum.inl exampleModel) :=
  C8_custom_columns_rejects (mkStargazer (Sum.inl exampleModel))
    [("a"), ("b")] [1, 2] (by decide)

/-- C9: for any ordering argument the `covariate_order` assert accepts (all
names already in the union index), the call succeeds, installs the new
order, and a following `reset_covariate_order` restores exactly the
construction-time row order; the first-column collapse table is never
touched and stays the one computed at construction. -/
theorem C9_order_roundtrip {κ : Type} [LinearOrder κ] [DecidableEq κ]
    [KeyRepr κ] (input : Model κ ⊕ List (Model κ)) (names : List κ)
    (h : names.all (fun k => decide (k ∈ (mkStargazer input).param_names))
      = true) :
    ∃ st', covariate_order_m (mkStargazer input) names = Except.ok st' ∧
      st'.param_names = names ∧
      st'.first_table_col = (mkStargazer input).first_table_col ∧
      (reset_covariate_order_m st').param_names =
        (mkStargazer input).param_names ∧
      (reset_covariate_order_m st').first_table_col =
        (mkStargazer input).first_table_col := by
  refine ⟨{ mkStargazer input with
      original_param_names := some (mkStargazer input).param_names,
      param_names := names }, ?_, rfl, rfl, rfl, rfl⟩
  rw [covariate_order_m, if_pos h]

/-- C9 witness: on the one-model example instance, reordering to `[2]` and
resetting restores the original `[1, 2]` order and the original
first-column table. -/
theorem C9_order_roundtrip_witness :
    ∃ st', covariate_order_m (mkStargazer (Sum.inl exampleModel)) [2] =
        Except.ok st' ∧
      st'.param_names = [2] ∧
      st'.first_table_col =
        (mkStargazer (Sum.inl exampleModel)).first_table_col ∧
      (reset_covariate_order_m st').param_names =
        (mkStargazer (Sum.inl exampleModel)).param_names ∧
      (reset_covariate_order_m st').first_table_col =
        (mkStargazer (Sum.inl exampleModel)).first_table_col :=
  C9_order_roundtrip (Sum.inl exampleModel) [2] (by decide)

/-- C10: constructing from a single model object is the same as constructing
from the one-element list holding it: the states are equal, the model count
is 1, and both render operations give identical output. -/
theorem C10_single_vs_list {κ : Type} [LinearOrder κ] [DecidableEq κ]
    [KeyRepr κ] (m : Model κ) :
    mkStargazer (Sum.inl m) = mkStargazer (Sum.inr [m]) ∧
    (mkStargazer (Sum.inl m)).num_models = 1 ∧
    render_html (mkStargazer (Sum.inl m)) =
      render_html (mkStargazer (Sum.inr [m])) ∧
    (∀ only_tabular : Bool,
      render_latex (mkStargazer (Sum.inl m)) only_tabular =
        render_latex (mkStargazer (Sum.inr [m])) only_tabular) :=
  ⟨rfl, rfl, rfl, fun _ => rfl⟩

end StargazerModel
